import Mathlib

/-
Verification of express-middleware-upload (src/index.js).

The development shallowly embeds the middleware factory: Node's posix path
functions are translated to character-list functions, the settings object and
its per-request resolution are explicit records, the filesystem is an abstract
record of capabilities, and each handler (emu.list, emu.get, emu.post,
emu.delete, emu.move) together with the method dispatcher and runMiddleware is
a pure function producing its observable effects (responses sent, paths
accessed, files written, settings mutations).
-/

/-- Split a character list on the slash character, keeping empty segments,
matching the segment scan of Node's path.posix code (String.prototype.split
on a separator). -/
def splitSlash : List Char → List (List Char)
  | [] => [[]]
  | c :: rest =>
    let r := splitSlash rest
    if c = '/' then [] :: r
    else
      match r with
      | [] => [[c]]
      | seg :: segs => (c :: seg) :: segs

/-- Join segments back with single slash separators. -/
def joinSlash : List (List Char) → List Char
  | [] => []
  | [s] => s
  | s :: rest => s ++ '/' :: joinSlash rest

/-- Segment resolution of Node's path.posix.normalize (normalizeString): empty
and dot segments are dropped, a dot-dot segment pops the previous output
segment; above-root dot-dot segments are kept for relative paths
(allowAboveRoot) and dropped for absolute ones. -/
def normSegs (allowAbove : Bool) (acc : List (List Char)) : List (List Char) → List (List Char)
  | [] => acc.reverse
  | seg :: rest =>
    if seg = [] ∨ seg = ['.'] then normSegs allowAbove acc rest
    else if seg = ['.', '.'] then
      match acc with
      | [] =>
        if allowAbove then normSegs allowAbove [['.', '.']] rest
        else normSegs allowAbove [] rest
      | a :: tl =>
        if a = ['.', '.'] then
          (if allowAbove then normSegs allowAbove (seg :: acc) rest
           else normSegs allowAbove acc rest)
        else normSegs allowAbove tl rest
    else normSegs allowAbove (seg :: acc) rest

/-- Node's path.posix.normalize: resolve dot and dot-dot segments, collapse
separator runs, keep a trailing separator, return a dot for an empty result. -/
def pathNormalize (p : String) : String :=
  match p.data with
  | [] => "."
  | c :: cs =>
    let full := c :: cs
    let isAbs : Bool := c = '/'
    let trail : Bool := match full.getLast? with | some '/' => true | _ => false
    let body := joinSlash (normSegs (!isAbs) [] (splitSlash full))
    if body = [] then
      (if isAbs then "/" else if trail then "./" else ".")
    else
      String.mk ((if isAbs then ['/'] else []) ++ body ++ (if trail then ['/'] else []))

/-- Node's path.posix.join: drop empty arguments, concatenate the rest with
slashes, normalize; with nothing left the result is a dot. -/
def pathJoin (parts : List String) : String :=
  match parts.filter (fun s => !s.data.isEmpty) with
  | [] => "."
  | x :: xs => pathNormalize (String.mk (joinSlash ((x :: xs).map String.data)))

/-- Node's path.posix.basename: the last nonempty slash-separated segment
(empty for the root path or the empty string). -/
def pathBasename (p : String) : String :=
  match ((splitSlash p.data).filter (fun s => !s.isEmpty)).getLast? with
  | some s => String.mk s
  | none => ""

/-- Node's path.posix.dirname restricted to the already-normalized paths the
source feeds it: everything before the last nonempty segment. -/
def pathDirname (p : String) : String :=
  let segs := (splitSlash p.data).filter (fun s => !s.isEmpty)
  let isAbs : Bool := match p.data with | '/' :: _ => true | _ => false
  if segs.length ≤ 1 then (if isAbs then "/" else ".")
  else String.mk ((if isAbs then ['/'] else []) ++ joinSlash segs.dropLast)

/-- Index of the last dot in a character list, if any. -/
def lastDotAux : List Char → Nat → Option Nat → Option Nat
  | [], _, acc => acc
  | c :: rest, i, acc => lastDotAux rest (i + 1) (if c = '.' then some i else acc)

/-- Node's path.posix.extname: the suffix of the basename from its last dot,
empty when there is no dot or the only dot leads the basename. -/
def extnameOf (p : String) : String :=
  let b := (pathBasename p).data
  match lastDotAux b 0 none with
  | none => ""
  | some 0 => ""
  | some i => String.mk (b.drop i)

/-- Listing decoration of an extension in emu.list: extname lowercased with
the leading dot stripped. -/
def entryExt (p : String) : String :=
  let e := String.mk ((extnameOf p).data.map Char.toLower)
  match e.data with
  | '.' :: rest => String.mk rest
  | _ => e

/-- Template-literal concatenation of two pieces around a slash, as the source
builds settings.path + '/' + req.params.path. -/
def slashConcat (a b : String) : String :=
  String.mk (a.data ++ '/' :: b.data)

/-- JavaScript string interpolation of req.params.path: an absent value
interpolates as the literal text undefined. -/
def optStr : Option String → String
  | none => "undefined"
  | some s => s

/-- JavaScript truthiness test of an optional string field: undefined and the
empty string are falsy, every other string is truthy. -/
def jsFalsy : Option String → Bool
  | none => true
  | some s => s.data.isEmpty

/-- JavaScript substring comparison used by emu.get's containment check:
path.substr(0, root.length) compared with root, on character counts. -/
def substrCheckFails (root p : String) : Bool :=
  !(String.mk (p.data.take root.data.length) == root)

/-- Modelled from the spec's words: a path lies lexically within the storage
root when it is the root itself or sits below it as a directory child. This
definition follows the specification text for comparison with the source's
substring check and is not part of the source translation. -/
def specWithinRoot (root p : String) : Bool :=
  p == root || (String.mk (root.data ++ ['/'])).data.isPrefixOf p.data

/-- Behaviour of one caller-supplied middleware step: it calls its next
continuation, ends the exchange without calling it, or signals an error. -/
inductive StepBeh where
  | proceed
  | halt
  | fail (msg : String)
deriving DecidableEq, Repr

/-- One middleware step, tagged with an identifier so executions can be
compared across gates. -/
structure Step where
  sid : String
  beh : StepBeh
deriving DecidableEq, Repr

/-- Value of one operation gate option, mirroring the JavaScript types the
source inspects: undefined, a boolean, a function, an array of functions, or
a string key naming another gate. -/
inductive Gate where
  | undefinedG
  | boolG (b : Bool)
  | fnG (s : Step)
  | arrG (ss : List Step)
  | strG (k : String)
deriving DecidableEq, Repr

/-- Result of running a middleware list serially: every step proceeded, or a
step failed with an error, or a step ended the exchange without continuing. -/
inductive ChainRes where
  | completed (ranIds : List String)
  | failed (ranIds : List String) (msg : String)
  | halted (ranIds : List String)
deriving DecidableEq, Repr

/-- Serial execution of middleware steps, one at a time, stopping at the
first failure or at a step that never continues. -/
def runChain : List Step → ChainRes
  | [] => .completed []
  | s :: rest =>
    match s.beh with
    | .proceed =>
      match runChain rest with
      | .completed ids => .completed (s.sid :: ids)
      | .failed ids m => .failed (s.sid :: ids) m
      | .halted ids => .halted (s.sid :: ids)
    | .halt => .halted [s.sid]
    | .fail m => .failed [s.sid] m

/-- Observable outcome of one runMiddleware call: whether the 403 denial
response was emitted, which steps ran, whether the error path sent its 403
error, whether the chain stalled, and whether the completion callback (the
operation handler) was invoked. -/
structure RMOut where
  sent403 : Bool := false
  executed : List String := []
  errored : Option String := none
  stalled : Bool := false
  allowed : Bool := false
  fuelOut : Bool := false
deriving DecidableEq, Repr

/-- Packaging of a chain result into the runMiddleware outcome: completion
fires the callback, a step error is sent as a 403 error response, a stalled
chain leaves the exchange open. -/
def chainOut (ss : List Step) : RMOut :=
  match runChain ss with
  | .completed ids => { executed := ids, allowed := true }
  | .failed ids m => { executed := ids, errored := some m }
  | .halted ids => { executed := ids, stalled := true }

/-- Translation of runMiddleware (src/index.js lines 50 to 78). Boolean false
ends the response with status 403 but does not return, so control still
reaches the chain runner with an undefined runnable list; the chain library
treats an absent list as empty and completes without error, invoking the
callback (this same fall-through is what makes a boolean true gate, and a
string gate without a lookup object, allow the operation). Undefined and null
middleware return the callback directly. A string middleware is resolved
through the lookup object only when one was passed; the method dispatcher
never passes one. The fuel bound makes the recursive string resolution, which
can loop in JavaScript, total. -/
def runMiddleware (fuel : Nat) (gate : Gate) (lookup : Option (String → Option Gate)) : RMOut :=
  match gate with
  | .boolG false => { sent403 := true, allowed := true }
  | .boolG true => { allowed := true }
  | .undefinedG => { allowed := true }
  | .fnG s => chainOut [s]
  | .arrG ss => chainOut ss
  | .strG k =>
    match lookup with
    | none => { allowed := true }
    | some f =>
      match f k with
      | none => { allowed := true }
      | some g =>
        match fuel with
        | 0 => { fuelOut := true }
        | n + 1 => runMiddleware n g lookup

/-- One uploaded file descriptor as delivered by multer: original name and
in-memory content. -/
structure UpFile where
  originalname : String
  buffer : String
deriving DecidableEq, Repr

/-- Incoming request, restricted to the fields the source reads. The fields
paramsPath and paramPath model the two distinct JavaScript property accesses
req.params.path and req.param.path, which the source both uses. The body
parser is an external collaborator: parseErr and files are its outcome for an
upload request (files is absent when the parser attached nothing). -/
structure Request where
  method : String
  paramsPath : Option String := none
  paramPath : Option String := none
  headersDestination : Option String := none
  parseErr : Option String := none
  files : Option (List UpFile) := none
deriving DecidableEq, Repr

/-- Outcome of fs.access on a path. -/
inductive AccessRes where
  | ok
  | enoent
  | errA (e : String)
deriving DecidableEq, Repr

/-- Outcome of fs.stat on the storage root for a listing. -/
inductive StatRes where
  | dir
  | notDir
  | notExist
  | errS (e : String)
deriving DecidableEq, Repr

/-- Abstract filesystem capability record. Defaults describe a permissive
filesystem on which every operation succeeds. Per-entry stat during listing
decoration is assumed to succeed, as the entries were just enumerated. -/
structure Fs where
  access : String → AccessRes := fun _ => .ok
  statRes : String → StatRes := fun _ => .dir
  readdir : String → Except String (List String) := fun _ => .ok []
  statSize : String → Nat := fun _ => 0
  statCtime : String → Nat := fun _ => 0
  mkdirpErr : String → Option String := fun _ => none
  writeErr : String → Option String := fun _ => none
  unlinkErr : String → Option String := fun _ => none
  renameErr : String → String → Option String := fun _ _ => none

/-- Storage path option: a static string or a per-request computed path. -/
inductive PathCfg where
  | staticP (p : String)
  | dynamicP (f : Request → String)

/-- Settings object: the factory options merged over emu.defaults (basePath,
limit 0, field file, postPath upload, plain errorHandler). The expect option
appears in the repository's README and tests but is never read by
src/index.js; it is carried here so statements about it can be made. Gates
default to undefined; src/index.js sets no default for move or delete. -/
structure Settings where
  path : PathCfg
  basePath : String := ""
  limit : Nat := 0
  expect : Nat := 0
  field : Option String := some "file"
  postPath : String := "upload"
  list : Gate := .undefinedG
  get : Gate := .undefinedG
  post : Gate := .undefinedG
  move : Gate := .undefinedG
  delete : Gate := .undefinedG
  postProcessing : Gate := .undefinedG

/-- Mount-time settings fixup (src/index.js line 86): a static path is
normalized joined onto emu.defaults.basePath (the global default, not the
per-options basePath). A function path is left for per-request resolution. -/
def emuMount (defaultsBasePath : String) (o : Settings) : Settings :=
  match o.path with
  | .staticP p => { o with path := .staticP (pathNormalize (pathJoin [defaultsBasePath, p])) }
  | .dynamicP _ => o

/-- Response of emu.get: an error through settings.errorHandler, or the file
is sent. -/
inductive GetOut where
  | errHandler (code : Nat) (msg : String)
  | sendFile (p : String)
deriving DecidableEq, Repr

/-- Translation of emu.get (src/index.js lines 202 to 231): normalize the
template-joined path, check existence with fs.access, then compare the
substring of the normalized path against the root, and send the file. The
containment check runs after the existence check; the chain stops at the
first error, the end stage maps the missing-file marker to 404 and every
other error to 400. -/
def emuGet (fs : Fs) (root : String) (req : Request) : GetOut :=
  let p := pathNormalize (slashConcat root (optStr req.paramsPath))
  match fs.access p with
  | .enoent => .errHandler 404 "File not found"
  | .errA e => .errHandler 400 ("File access error - " ++ e)
  | .ok =>
    if substrCheckFails root p then .errHandler 400 "File outside of storage directory!"
    else .sendFile p

/-- One listing entry as decorated by emu.list. -/
structure Entry where
  name : String
  ext : String
  size : Nat
  created : Nat
deriving DecidableEq, Repr

/-- Response of emu.list: entries sent, or an error through
settings.errorHandler. -/
inductive ListOut where
  | send (es : List Entry)
  | errHandler (code : Nat) (msg : String)
deriving DecidableEq, Repr

/-- Translation of emu.list (src/index.js lines 152 to 192): stat the root; a
missing root short-circuits with the DIRNOTEXIST marker which the end stage
turns into an empty array response; other stat errors and a non-directory
root go to settings.errorHandler with status 400; otherwise the directory is
read and each entry decorated with basename, lowercased extension, size and
change time. -/
def emuList (fs : Fs) (root : String) : ListOut :=
  match fs.statRes root with
  | .notExist => .send []
  | .errS e => .errHandler 400 ("Directory access error - " ++ e)
  | .notDir => .errHandler 400 "Not a directory"
  | .dir =>
    match fs.readdir root with
    | .error e => .errHandler 400 e
    | .ok names =>
      .send (names.map (fun n =>
        { name := pathBasename n
          ext := entryExt n
          size := fs.statSize (pathJoin [root, n])
          created := fs.statCtime (pathJoin [root, n]) }))

/-- Response effect of emu.delete and emu.move. -/
inductive OpResp where
  | ok200
  | errHandler (code : Nat) (msg : String)
deriving DecidableEq, Repr

/-- Effects of emu.delete: the path handed to fs.unlink, and the response. -/
structure DelOut where
  unlinked : String
  resp : OpResp
deriving DecidableEq, Repr

/-- Translation of emu.delete (src/index.js lines 340 to 358): normalize the
template-joined path and unlink it; no containment check is made before the
unlink. An unlink error goes to settings.errorHandler with status 400,
otherwise status 200 is sent. -/
def emuDelete (fs : Fs) (root : String) (req : Request) : DelOut :=
  let p := pathNormalize (slashConcat root (optStr req.paramsPath))
  match fs.unlinkErr p with
  | none => { unlinked := p, resp := .ok200 }
  | some e => { unlinked := p, resp := .errHandler 400 e }

/-- Effects of emu.move: the source and destination handed to fs.rename when
the rename is attempted, and the response. -/
structure MoveOut where
  renamed : Option (String × String) := none
  resp : OpResp
deriving DecidableEq, Repr

/-- Translation of emu.move (src/index.js lines 368 to 392): a falsy
destination header fails first; otherwise the normalized source path is
renamed to its own directory joined with the basename of the destination
header; no containment check is made. -/
def emuMove (fs : Fs) (root : String) (req : Request) : MoveOut :=
  if jsFalsy req.headersDestination then
    { resp := .errHandler 400 "Destination header not specified" }
  else
    let src := pathNormalize (slashConcat root (optStr req.paramsPath))
    let dst := pathJoin [pathDirname src, pathBasename (optStr req.headersDestination)]
    match fs.renameErr src dst with
    | none => { renamed := some (src, dst), resp := .ok200 }
    | some e => { renamed := some (src, dst), resp := .errHandler 400 e }

/-- Sanity stage of emu.post (src/index.js lines 244 to 250): under the param
naming policy the settings limit is first set to 1 (a mutation of the settings
object the handler received), and then the guard inspects req.param.path, not
req.params.path; a falsy value fails with the message that names
req.params.path. Returns the possibly mutated settings and the guard error. -/
def postSanity (s : Settings) (req : Request) : Settings × Option String :=
  if s.postPath = "param" then
    ({ s with limit := 1 },
     if jsFalsy req.paramPath then some "No filename given in req.params.path" else none)
  else (s, none)

/-- Destination path of one uploaded file (src/index.js lines 284 to 299) per
the postPath naming policy, normalized. When req.params.path is undefined the
join throws a TypeError in JavaScript, as it does when postPath matches no
case and the switch leaves the path undefined; both are reported as thrown. -/
def computeFilePath (s : Settings) (root : String) (req : Request) (f : UpFile) : Except String String :=
  match s.postPath with
  | "upload" => .ok (pathNormalize (pathJoin [root, f.originalname]))
  | "param" =>
    match req.paramsPath with
    | some p => .ok (pathNormalize (pathJoin [root, p]))
    | none => .error "TypeError: path argument must be a string"
  | "dir" =>
    match req.paramsPath with
    | some p => .ok (pathNormalize (pathJoin [root, p, f.originalname]))
    | none => .error "TypeError: path argument must be a string"
  | _ => .error "TypeError: path argument must be a string"

/-- Error raised inside the per-file loop: a thrown TypeError, or an error
passed down the chain (directory creation or write failure). -/
inductive FileErr where
  | thrown (m : String)
  | chainErr (m : String)
deriving DecidableEq, Repr

/-- Per-file loop of emu.post (src/index.js lines 280 to 316): files are
processed strictly one at a time; for each file the destination is computed,
its directory is created when the dir policy is active, and the buffer is
written. The first error stops the loop; files already written stay written. -/
def postFiles (fs : Fs) (s : Settings) (root : String) (req : Request) :
    List UpFile → List String × Option FileErr
  | [] => ([], none)
  | f :: rest =>
    match computeFilePath s root req f with
    | .error m => ([], some (.thrown m))
    | .ok fp =>
      match (if s.postPath = "dir" then fs.mkdirpErr (pathDirname fp) else none) with
      | some e => ([], some (.chainErr e))
      | none =>
        match fs.writeErr fp with
        | some e => ([], some (.chainErr e))
        | none =>
          match postFiles fs s root req rest with
          | (ws, err) => (fp :: ws, err)

/-- Skip test for the post-processing stage (src/index.js line 320): skipped
when settings.postProcessing is falsy or an empty array. -/
def ppSkip : Gate → Bool
  | .undefinedG => true
  | .boolG b => !b
  | .strG k => k.data.isEmpty
  | .arrG ss => ss.isEmpty
  | .fnG _ => false

/-- Response of emu.post with the storage paths written before the outcome:
an error through settings.errorHandler, the chain-runner 403 error from a
failing post-processing step, a thrown TypeError, a post-processing step that
ended the exchange itself, or the default empty success payload. -/
inductive PostOut where
  | errHandler (code : Nat) (msg : String) (written : List String)
  | sendErr403 (msg : String) (written : List String)
  | thrown (msg : String) (written : List String)
  | ppHalt (written : List String)
  | okSend (written : List String)
deriving DecidableEq, Repr

/-- Fuel for string gate resolution; the dispatcher never passes a lookup
object, so no call in this development recurses. -/
def gateFuel : Nat := 100

/-- Translation of emu.post (src/index.js lines 241 to 330): the sanity stage
(with its settings.limit mutation), the external parser outcome, root
directory creation, the serial per-file loop, then post-processing run
through runMiddleware without a lookup object, and the end stage mapping a
chain error to settings.errorHandler with status 400. No stage counts the
batch against settings.expect or settings.limit: the source contains no
cardinality check and neither of the messages the repository's tests expect
for it. Returns the settings object as the handler leaves it, with the
response. -/
def emuPost (fs : Fs) (s0 : Settings) (root : String) (req : Request) : Settings × PostOut :=
  let sg := postSanity s0 req
  match sg.2 with
  | some m => (sg.1, .errHandler 400 m [])
  | none =>
    match req.parseErr with
    | some e => (sg.1, .errHandler 400 e [])
    | none =>
      match req.files with
      | none => (sg.1, .errHandler 400 "No files uploaded" [])
      | some fl =>
        match fs.mkdirpErr root with
        | some e => (sg.1, .errHandler 400 e [])
        | none =>
          match postFiles fs sg.1 root req fl with
          | (ws, some (.thrown m)) => (sg.1, .thrown m ws)
          | (ws, some (.chainErr m)) => (sg.1, .errHandler 400 m ws)
          | (ws, none) =>
            if ppSkip sg.1.postProcessing then (sg.1, .okSend ws)
            else
              let rm := runMiddleware gateFuel sg.1.postProcessing none
              if rm.allowed then (sg.1, .okSend ws)
              else
                match rm.errored with
                | some e => (sg.1, .sendErr403 e ws)
                | none => (sg.1, .ppHalt ws)

/-- Operation outcome inside a dispatched request. -/
inductive OpOut where
  | listO (o : ListOut)
  | getO (o : GetOut)
  | postO (o : PostOut)
  | moveO (o : MoveOut)
  | delO (o : DelOut)
deriving DecidableEq, Repr

/-- Observable outcome of one dispatched request: an error response emitted
before gating (the DELETE missing-parameter branch), the middleware runner
outcome, and the operation outcome when the runner invoked its callback. -/
structure DispatchOut where
  preError : Option (Nat × String) := none
  rm : RMOut := {}
  op : Option OpOut := none
deriving DecidableEq, Repr

/-- Translation of the method dispatcher (src/index.js lines 108 to 121) over
a resolved storage root. GET with a truthy path parameter gates with
settings.get and reads; GET gates with settings.list and lists; POST gates
with settings.post and uploads; MOVE also gates with settings.post (line 116
reads settings.post, never settings.move) and moves; DELETE first calls
settings.errorHandler when the path parameter is falsy and, without
returning, still gates with settings.delete and deletes. Every runMiddleware
call passes no lookup object. The settings returned are those after the
operation, carrying any mutation emu.post made. -/
def dispatch (fs : Fs) (s : Settings) (root : String) (req : Request) : Settings × DispatchOut :=
  if req.method = "GET" ∧ jsFalsy req.paramsPath = false then
    let rm := runMiddleware gateFuel s.get none
    (s, { rm := rm, op := if rm.allowed then some (.getO (emuGet fs root req)) else none })
  else if req.method = "GET" then
    let rm := runMiddleware gateFuel s.list none
    (s, { rm := rm, op := if rm.allowed then some (.listO (emuList fs root)) else none })
  else if req.method = "POST" then
    let rm := runMiddleware gateFuel s.post none
    if rm.allowed then
      let r := emuPost fs s root req
      (r.1, { rm := rm, op := some (.postO r.2) })
    else (s, { rm := rm })
  else if req.method = "MOVE" then
    let rm := runMiddleware gateFuel s.post none
    (s, { rm := rm, op := if rm.allowed then some (.moveO (emuMove fs root req)) else none })
  else if req.method = "DELETE" then
    let pre := if jsFalsy req.paramsPath then some (400, "No file path specified") else none
    let rm := runMiddleware gateFuel s.delete none
    (s, { preError := pre, rm := rm,
          op := if rm.allowed then some (.delO (emuDelete fs root req)) else none })
  else (s, {})

/-- Translation of the per-request settings resolution and handoff
(src/index.js lines 88 to 125): a static path is used as the root on the
settings object itself, so handler mutations land on the mounted settings; a
function path is evaluated for the request and placed on a shallow clone, so
the mounted settings are returned unchanged whatever the handler did to the
clone. -/
def handleRequest (fs : Fs) (s : Settings) (req : Request) : Settings × DispatchOut :=
  match s.path with
  | .staticP p => dispatch fs s p req
  | .dynamicP f => (s, (dispatch fs s (f req) req).2)

/-- Permissive filesystem fixture on which every operation succeeds. -/
def fsHappy : Fs := {}

/-- Distinctness of the access error message family from the escape message,
needed because the source routes errors as strings. -/
lemma accessErr_ne (e : String) :
    "File access error - " ++ e ≠ "File outside of storage directory!" := by
  intro h
  obtain ⟨l⟩ := e
  have h2 : ("File access error - " : String).data ++ l =
      ("File outside of storage directory!" : String).data := congrArg String.data h
  have h4 := congrArg (List.take 20) h2
  rw [List.take_append_of_le_length (by decide)] at h4
  exact absurd h4 (by decide)

/-- Fixture settings and request for the C1 counterexample: a DELETE request
whose path parameter climbs out of the storage root. -/
def c1Settings : Settings := { path := .staticP "/store/up" }

/-- DELETE request with a dot-dot path parameter. -/
def c1Req : Request := { method := "DELETE", paramsPath := some "../../etc/passwd" }

/-- C1 counterexample: the claim that every operation's resolved filesystem
path stays lexically within the storage root is false. A DELETE request with
path parameter dot-dot dot-dot etc/passwd against root /store/up passes the
unlink exactly the outside path /etc/passwd, and the operation succeeds. -/
theorem emu_c1_counterexample :
    (handleRequest fsHappy (emuMount "" c1Settings) c1Req).2.op =
      some (.delO { unlinked := "/etc/passwd", resp := .ok200 }) ∧
    specWithinRoot "/store/up" "/etc/passwd" = false := by
  decide

/-- C1 amended: only the get handler checks containment, and only as a
character-prefix comparison of the normalized path against the root; the
delete handler hands fs.unlink the normalized template join of root and path
parameter with no containment check at all (the counterexample shows that
path can lie outside the root). -/
theorem emu_c1_amended_containment :
    (∀ (fs : Fs) (root : String) (req : Request) (p : String),
      emuGet fs root req = .sendFile p →
        String.mk (p.data.take root.data.length) = root) ∧
    (∀ (fs : Fs) (root : String) (req : Request),
      (emuDelete fs root req).unlinked =
        pathNormalize (slashConcat root (optStr req.paramsPath))) := by
  constructor
  · intro fs root req p h
    unfold emuGet at h
    dsimp only at h
    split at h
    · exact absurd h (by simp)
    · exact absurd h (by simp)
    · split at h
      · exact absurd h (by simp)
      · rename_i hc
        injection h with hp
        subst hp
        unfold substrCheckFails at hc
        simp only [Bool.not_eq_true, Bool.not_eq_false'] at hc
        exact eq_of_beq hc
  · intro fs root req
    unfold emuDelete
    dsimp only
    cases fs.unlinkErr (pathNormalize (slashConcat root (optStr req.paramsPath))) <;> rfl

/-- GET request fixture for the C1 witness. -/
def c1GetReq : Request := { method := "GET", paramsPath := some "a.txt" }

/-- C1 witness: the amended containment statement applied to a concrete
served file. -/
theorem emu_c1_amended_witness :
    String.mk (("/store/a.txt" : String).data.take ("/store" : String).data.length) = "/store" :=
  emu_c1_amended_containment.1 fsHappy "/store" c1GetReq "/store/a.txt" (by decide)

/-- GET request fixture for the C2 counterexample: a dot-dot parameter whose
normalized join lands in a sibling directory sharing the root's characters. -/
def c2Req : Request := { method := "GET", paramsPath := some "../data2/x" }

/-- C2 counterexample: the claim that the get handler rejects exactly when
the normalized join lies outside the root is false. With root /data and
parameter dot-dot data2/x the normalized join is /data2/x, which lies outside
the root, yet the substring comparison accepts it and the file is served. -/
theorem emu_c2_counterexample :
    emuGet fsHappy "/data" c2Req = .sendFile "/data2/x" ∧
    specWithinRoot "/data" "/data2/x" = false := by
  decide

/-- C2 amended: the get handler rejects with the escape error exactly when
the file passes the access check and the root's characters are not a prefix
of the normalized join; the check runs on the normalized path but is a plain
substring comparison, so it accepts normalized paths in a sibling directory
whose name extends the root's characters even though they lie outside the
root. -/
theorem emu_c2_amended_escape_iff :
    ∀ (fs : Fs) (root : String) (req : Request),
      emuGet fs root req = .errHandler 400 "File outside of storage directory!" ↔
      (fs.access (pathNormalize (slashConcat root (optStr req.paramsPath))) = .ok ∧
       substrCheckFails root (pathNormalize (slashConcat root (optStr req.paramsPath))) = true) := by
  intro fs root req
  unfold emuGet
  dsimp only
  cases h : fs.access (pathNormalize (slashConcat root (optStr req.paramsPath)))
  case ok =>
    by_cases hc : substrCheckFails root (pathNormalize (slashConcat root (optStr req.paramsPath))) = true
    · simp [hc]
    · simp [hc]
  case enoent => simp
  case errA e =>
    constructor
    · intro hEq
      injection hEq with h1 h2
      exact absurd h2 (accessErr_ne e)
    · rintro ⟨h1, _⟩
      cases h1

/-- Settings fixture for C3: the constraints the repository's own test mounts
(expect 2, limit 3). -/
def c3Settings : Settings := { path := .staticP "/store", expect := 2, limit := 3 }

/-- Upload request fixture for C3: a batch of one file, below the expected
minimum of two. -/
def c3Req : Request :=
  { method := "POST", files := some [{ originalname := "a.txt", buffer := "hello" }] }

/-- C3: src/index.js performs no cardinality validation. With expect 2 and
limit 3 a batch of one file is accepted, written to storage, and answered
with the empty success payload instead of failing with the message the
repository's README and test suite (test/constraints.js) require. -/
theorem emu_c3_no_cardinality_check :
    (handleRequest fsHappy (emuMount "" c3Settings) c3Req).2.op =
      some (.postO (.okSend ["/store/a.txt"])) ∧
    (emuMount "" c3Settings).expect = 2 := by
  decide

/-- Upload request fixture for C4 with a one-file batch. -/
def c4Req : Request :=
  { method := "POST", files := some [{ originalname := "a.txt", buffer := "hello" }] }

/-- Settings fixture for C4: the post gate is the boolean false. -/
def c4Settings : Settings := { path := .staticP "/store", post := .boolG false }

/-- C4: a boolean false gate ends the response with 403 and never touches the
error handler, but the branch does not return, so the chain runner proceeds
with an undefined runnable list and invokes the completion callback: the
operation handler still runs. On a POST with gate false the upload is still
performed and the file written after the 403. -/
theorem emu_c4_false_gate_fallthrough :
    (∀ (fuel : Nat) (lookup : Option (String → Option Gate)),
      runMiddleware fuel (.boolG false) lookup = { sent403 := true, allowed := true }) ∧
    (handleRequest fsHappy c4Settings c4Req).2 =
      { rm := { sent403 := true, allowed := true },
        op := some (.postO (.okSend ["/store/a.txt"])) } := by
  constructor
  · intro fuel lookup
    unfold runMiddleware
    rfl
  · decide

/-- Settings fixture for C5: the list gate aliases the post gate, which holds
one step. -/
def c5Settings : Settings :=
  { path := .staticP "/store", list := .strG "post",
    post := .fnG { sid := "auth", beh := .proceed } }

/-- Listing request fixture for C5. -/
def c5Req : Request := { method := "GET" }

/-- C5: the dispatcher calls runMiddleware with four arguments, so the lookup
object is undefined and a string gate is never resolved against the settings:
with list aliasing post, a listing runs no step at all (executed list is
empty) and proceeds, while the post gate itself, when dispatched, runs its
step. -/
theorem emu_c5_alias_not_resolved :
    (handleRequest fsHappy c5Settings c5Req).2 =
      { rm := { allowed := true }, op := some (.listO (.send [])) } ∧
    runMiddleware gateFuel c5Settings.post none =
      { executed := ["auth"], allowed := true } := by
  decide

/-- MOVE request fixture for C6. -/
def c6MoveReq : Request :=
  { method := "MOVE", paramsPath := some "a.txt", headersDestination := some "b.txt" }

/-- Settings fixture for C6 with the move gate denied and no post gate. -/
def c6SettingsA : Settings := { path := .staticP "/store", move := .boolG false }

/-- Settings fixture for C6 with the post gate denied and no move gate. -/
def c6SettingsB : Settings := { path := .staticP "/store", post := .boolG false }

/-- C6: a MOVE request is gated by settings.post, not settings.move. With
move set to false and no post gate, the rename is performed with no 403; with
post set to false and no move gate, the 403 denial fires on a MOVE. The move
option src/index.js documents is never read. -/
theorem emu_c6_move_gated_by_post :
    (handleRequest fsHappy c6SettingsA c6MoveReq).2 =
      { rm := { allowed := true },
        op := some (.moveO { renamed := some ("/store/a.txt", "/store/b.txt"),
                             resp := .ok200 }) } ∧
    (handleRequest fsHappy c6SettingsB c6MoveReq).2.rm.sent403 = true := by
  decide

/-- DELETE request fixture for C7 with no path parameter. -/
def c7Req : Request := { method := "DELETE" }

/-- Settings fixture for C7. -/
def c7Settings : Settings := { path := .staticP "/store" }

/-- C7: a DELETE with no path parameter calls the error handler with 400 and
the message, but the branch does not return: the delete gate still runs and
emu.delete unlinks the normalized join of the root with the text undefined
(the interpolation of the missing parameter), then sends 200. -/
theorem emu_c7_delete_still_runs :
    (handleRequest fsHappy c7Settings c7Req).2 =
      { preError := some (400, "No file path specified"),
        rm := { allowed := true },
        op := some (.delO { unlinked := "/store/undefined", resp := .ok200 }) } := by
  decide

/-- Sanity-stage computation under a naming policy other than param: nothing
is mutated and no guard error arises. -/
lemma postSanity_not_param (s : Settings) (req : Request) (h : s.postPath ≠ "param") :
    postSanity s req = (s, none) := by
  unfold postSanity
  rw [if_neg h]

/-- Settings component of emu.post under a naming policy other than param:
the handler returns the settings object unchanged. -/
lemma emuPost_fst_not_param (fs : Fs) (s : Settings) (root : String) (req : Request)
    (h : s.postPath ≠ "param") : (emuPost fs s root req).1 = s := by
  unfold emuPost
  dsimp only
  rw [postSanity_not_param s req h]
  dsimp only
  repeat' split
  all_goals rfl

/-- Settings component of a dispatched request with a method other than POST:
no handler mutates the settings. -/
lemma dispatch_fst_not_post (fs : Fs) (s : Settings) (root : String) (req : Request)
    (h : req.method ≠ "POST") : (dispatch fs s root req).1 = s := by
  unfold dispatch
  dsimp only
  split_ifs
  all_goals rfl

/-- Settings component of a dispatched request under a naming policy other
than param: no handler mutates the settings. -/
lemma dispatch_fst_not_param (fs : Fs) (s : Settings) (root : String) (req : Request)
    (h : s.postPath ≠ "param") : (dispatch fs s root req).1 = s := by
  unfold dispatch
  dsimp only
  split_ifs
  all_goals first
    | rfl
    | exact emuPost_fst_not_param fs s root req h

/-- Settings fixture for the C8 counterexample: a static storage path with
the param naming policy. -/
def c8Settings : Settings := { path := .staticP "/store", postPath := "param" }

/-- Upload request fixture for the C8 counterexample. -/
def c8Req : Request := { method := "POST" }

/-- C8 counterexample: with a static storage path the handlers receive the
mounted settings object itself, and an upload under the param naming policy
sets its limit to 1 before the filename guard runs, so one POST request
mutates the mounted configuration from limit 0 to limit 1. -/
theorem emu_c8_counterexample :
    (emuMount "" c8Settings).limit = 0 ∧
    (handleRequest fsHappy (emuMount "" c8Settings) c8Req).1.limit = 1 := by
  decide

/-- C8 amended: the per-request resolution clones the settings only when the
storage path is a function, in which case the mounted settings always come
back unchanged; with a static path the request also leaves the mounted
settings unchanged whenever the method is not POST or the naming policy is
not param. The one exception is the counterexample's combination, an upload
under the param policy with a static path, which writes limit 1 into the
mounted settings. -/
theorem emu_c8_amended_mutation :
    (∀ (fs : Fs) (f : Request → String) (o : Settings) (req : Request),
      (handleRequest fs { o with path := .dynamicP f } req).1 =
        { o with path := .dynamicP f }) ∧
    (∀ (fs : Fs) (s : Settings) (req : Request), req.method ≠ "POST" →
      (handleRequest fs s req).1 = s) ∧
    (∀ (fs : Fs) (s : Settings) (req : Request), s.postPath ≠ "param" →
      (handleRequest fs s req).1 = s) := by
  refine ⟨?_, ?_, ?_⟩
  · intro fs f o req
    rfl
  · intro fs s req h
    unfold handleRequest
    split
    · exact dispatch_fst_not_post _ _ _ _ h
    · rfl
  · intro fs s req h
    unfold handleRequest
    split
    · exact dispatch_fst_not_param _ _ _ _ h
    · rfl

/-- C8 witness: the amended statement applied to a concrete GET request on a
static mount. -/
theorem emu_c8_amended_witness :
    (handleRequest fsHappy { path := .staticP "/store" } { method := "GET" }).1 =
      ({ path := .staticP "/store" } : Settings) :=
  emu_c8_amended_mutation.2.1 fsHappy { path := .staticP "/store" } { method := "GET" }
    (by decide)

/-- C9: when the storage root does not exist, the listing responds with the
empty array rather than an error; when the root exists but is not a
directory, the listing fails through the configured error handler with
status 400 and the not-a-directory message. -/
theorem emu_c9_list_missing_root :
    ∀ (fs : Fs) (root : String),
      (fs.statRes root = .notExist → emuList fs root = .send []) ∧
      (fs.statRes root = .notDir → emuList fs root = .errHandler 400 "Not a directory") := by
  intro fs root
  constructor <;> intro h <;> unfold emuList <;> rw [h]

/-- Filesystem fixture whose storage root does not exist. -/
def fsNoRoot : Fs := { statRes := fun _ => .notExist }

/-- Filesystem fixture whose storage root is a non-directory entry. -/
def fsFileRoot : Fs := { statRes := fun _ => .notDir }

/-- C9 witness: the listing statement applied to the two concrete
filesystems. -/
theorem emu_c9_list_witness :
    emuList fsNoRoot "/store" = .send [] ∧
    emuList fsFileRoot "/store" = .errHandler 400 "Not a directory" :=
  ⟨(emu_c9_list_missing_root fsNoRoot "/store").1 rfl,
   (emu_c9_list_missing_root fsFileRoot "/store").2 rfl⟩

/-- C10: the missing-filename guard of emu.post reads req.param.path, so its
outcome is invariant under any change to req.params.path; under the param
naming policy it fires exactly when req.param.path is falsy, and when it
fires emu.post stops with status 400 and the message that names
req.params.path, with nothing written. -/
theorem emu_c10_param_guard :
    ∀ (s : Settings) (req : Request) (v : Option String),
      (postSanity s { req with paramsPath := v }).2 = (postSanity s req).2 ∧
      ((postSanity s req).2.isSome = true ↔
        (s.postPath = "param" ∧ jsFalsy req.paramPath = true)) ∧
      (∀ (fs : Fs) (root : String) (m : String),
        (postSanity s req).2 = some m →
          emuPost fs s root req = ((postSanity s req).1, .errHandler 400 m [])) := by
  intro s req v
  refine ⟨?_, ?_, ?_⟩
  · unfold postSanity
    split_ifs <;> rfl
  · unfold postSanity
    by_cases h1 : s.postPath = "param"
    · cases h2 : jsFalsy req.paramPath <;> simp [h1, h2]
    · simp [h1]
  · intro fs root m h
    unfold emuPost
    dsimp only
    rw [h]

/-- Settings fixture for the C10 witness: param naming policy. -/
def c10Settings : Settings := { path := .staticP "/store", postPath := "param" }

/-- Upload request fixture for the C10 witness: a truthy req.params.path and
no req.param.path. -/
def c10Req : Request := { method := "POST", paramsPath := some "whatever" }

/-- C10 witness: the guard statement applied to a concrete upload whose
req.params.path carries a filename while req.param.path is absent; the
request still fails with the missing-filename message. -/
theorem emu_c10_param_guard_witness :
    emuPost fsHappy c10Settings "/store" c10Req =
      ({ c10Settings with limit := 1 },
       .errHandler 400 "No filename given in req.params.path" []) :=
  (emu_c10_param_guard c10Settings c10Req none).2.2 fsHappy "/store"
    "No filename given in req.params.path" (by decide)
